import Mathlib

/-!
Verification of the WCAG agent-skills command-line utilities.

Each utility is a pure pipeline: parse strings, compute a small numeric or
rule-based result, report it.  JavaScript strings are embedded as `List Char`,
JavaScript numbers as `ℚ` (exact rational arithmetic; the only transcendental
computation, the gamma expansion inside relative luminance, is embedded over
`ℝ`).  A JavaScript value that can be `null` or `NaN` is embedded with an
explicit sum type, because the scripts' truthiness checks distinguish those
cases.
-/

namespace Wcag

/-! ## JavaScript string and number primitives -/

/-- Whitespace as recognised by `String.prototype.trim` (ASCII part). -/
def isJsWhitespace (c : Char) : Bool :=
  c = ' ' || c = '\t' || c = '\n' || c = '\r' || c = '\x0b' || c = '\x0c'

/-- `s.trim()`: drop leading and trailing whitespace. -/
def jsTrim (s : List Char) : List Char :=
  ((s.dropWhile isJsWhitespace).reverse.dropWhile isJsWhitespace).reverse

/-- `s.toLowerCase()` (ASCII part, which is all the tools compare against). -/
def jsToLower (s : List Char) : List Char :=
  s.map Char.toLower

/-- `s.includes(pat)`: substring test, embedded structurally. -/
def listContains (pat : List Char) : List Char → Bool
  | [] => pat.isEmpty
  | c :: rest => pat.isPrefixOf (c :: rest) || listContains pat rest

/-- `s.split(sep)` for a one-character separator; `"".split(sep) = [""]`. -/
def splitOnChar (sep : Char) : List Char → List (List Char)
  | [] => [[]]
  | c :: rest =>
    match splitOnChar sep rest with
    | [] => [[c]]
    | h :: t => if c = sep then [] :: h :: t else (c :: h) :: t

/-- Numeric value of a digit character under `parseInt` (radix up to 36);
an out-of-range result marks a non-digit. -/
def digitVal (c : Char) : ℕ :=
  if '0' ≤ c ∧ c ≤ '9' then c.toNat - 48
  else if 'a' ≤ c ∧ c ≤ 'z' then c.toNat - 87
  else if 'A' ≤ c ∧ c ≤ 'Z' then c.toNat - 55
  else 99

/-- A JavaScript number that may be `NaN`: `none` is `NaN`. -/
abbrev JNum := Option ℤ

/-- Accumulate the maximal leading run of digits valid in `radix`;
`none` (`NaN`) when there is no leading digit at all. -/
def parseDigits (radix : ℕ) (s : List Char) : JNum :=
  let ds := (s.takeWhile (fun c => digitVal c < radix)).map digitVal
  if ds.isEmpty then none else some (ds.foldl (fun a d => a * radix + d) 0)

/-- `parseInt(s, radix)` for an explicit radix: skip leading whitespace, read
an optional sign, strip an optional `0x`/`0X` when the radix is 16, then
parse the maximal run of digits (`NaN` when empty). -/
def jsParseIntRadix (radix : ℕ) (s : List Char) : JNum :=
  let s1 := s.dropWhile isJsWhitespace
  let (neg, s2) : Bool × List Char :=
    match s1 with
    | '-' :: rest => (true, rest)
    | '+' :: rest => (false, rest)
    | other => (false, other)
  let s3 :=
    if radix = 16 then
      match s2 with
      | '0' :: 'x' :: rest => rest
      | '0' :: 'X' :: rest => rest
      | other => other
    else s2
  (parseDigits radix s3).map (fun n => if neg then -n else n)

/-- `parseInt(s)` with no radix argument: base 16 when the digits start
with `0x`/`0X`, base 10 otherwise. -/
def jsParseIntAuto (s : List Char) : JNum :=
  let s1 := s.dropWhile isJsWhitespace
  let s2 : List Char :=
    match s1 with
    | '-' :: rest => rest
    | '+' :: rest => rest
    | other => other
  match s2 with
  | '0' :: 'x' :: _ => jsParseIntRadix 16 s
  | '0' :: 'X' :: _ => jsParseIntRadix 16 s
  | _ => jsParseIntRadix 10 s

/-- `Math.round` (half toward positive infinity), on exact rationals. -/
def jsRound (q : ℚ) : ℤ :=
  Rat.floor (q + 1/2)

/-- `Rat.floor` agrees with the ambient floor function, which the order
lemmas are stated for. -/
theorem ratFloor_eq_intFloor (q : ℚ) : Rat.floor q = ⌊q⌋ := by
  rw [Rat.floor_def, Rat.floor_def']

/-! ## Contrast ratio calculator: WCAG compliance thresholds

From `checkCompliance(ratio, type)`: the ratio is first rounded to two
decimals (`Math.round(ratio * 100) / 100`), then compared against the
fixed WCAG thresholds. -/

/-- `Math.round(ratio * 100) / 100`. -/
def roundTo2 (ratio : ℚ) : ℚ :=
  (jsRound (ratio * 100) : ℚ) / 100

/-- Pass/fail pair for normal and large text at one conformance level. -/
structure TextLevels where
  normal : Bool
  large : Bool
  deriving DecidableEq, Repr

/-- Result shape of `checkCompliance`: a flat AA/AAA pair for non-text,
normal/large pairs for text. -/
inductive ComplianceResult where
  | nonText (AA AAA : Bool)
  | text (AA AAA : TextLevels)
  deriving DecidableEq, Repr

/-- `checkCompliance(ratio, type)` from the contrast calculator. -/
def checkCompliance (ratio : ℚ) (ty : List Char) : ComplianceResult :=
  let roundedRatio := roundTo2 ratio
  if ty = "non-text".data then
    ComplianceResult.nonText (decide (roundedRatio ≥ 3)) (decide (roundedRatio ≥ 3))
  else
    ComplianceResult.text
      ⟨decide (roundedRatio ≥ 4.5), decide (roundedRatio ≥ 3)⟩
      ⟨decide (roundedRatio ≥ 7), decide (roundedRatio ≥ 4.5)⟩

/-- C1: for every reported contrast ratio r (the tool reports the ratio
rounded to two decimals, and feeds the same rounded value to the threshold
checks, so the reported ratios are exactly the fixed points of `roundTo2`):
with type 'text', AA-normal passes iff r ≥ 4.5, AA-large iff r ≥ 3.0,
AAA-normal iff r ≥ 7.0, AAA-large iff r ≥ 4.5; with type 'non-text' both
AA and AAA pass iff r ≥ 3.0, so AA and AAA agree. -/
theorem checkCompliance_thresholds (r : ℚ) (hr : roundTo2 r = r) :
    checkCompliance r "text".data =
      ComplianceResult.text
        ⟨decide (r ≥ 4.5), decide (r ≥ 3)⟩
        ⟨decide (r ≥ 7), decide (r ≥ 4.5)⟩
    ∧ checkCompliance r "non-text".data =
      ComplianceResult.nonText (decide (r ≥ 3)) (decide (r ≥ 3)) := by
  constructor
  · simp only [checkCompliance]
    rw [if_neg (by decide), hr]
  · simp only [checkCompliance]
    rw [if_pos trivial, hr]

/-- Witness for C1 at the concrete reported ratio 4.5. -/
theorem checkCompliance_thresholds_witness :
    checkCompliance (9/2) "text".data =
      ComplianceResult.text
        ⟨decide ((9/2 : ℚ) ≥ 4.5), decide ((9/2 : ℚ) ≥ 3)⟩
        ⟨decide ((9/2 : ℚ) ≥ 7), decide ((9/2 : ℚ) ≥ 4.5)⟩
    ∧ checkCompliance (9/2) "non-text".data =
      ComplianceResult.nonText (decide ((9/2 : ℚ) ≥ 3)) (decide ((9/2 : ℚ) ≥ 3)) :=
  checkCompliance_thresholds (9/2)
    (by unfold roundTo2 jsRound; rw [ratFloor_eq_intFloor]; norm_num)

/-! ## Touch target size checker

From the touch-target script: `parseDimensions` coalesces `--width`/
`--height`, a `--dimensions WxH` shorthand and a `--json` blob into two
JavaScript numbers, rejects falsy or `NaN` values, and `checkSize` /
`checkSpacing` compare against the 44px / 8px constants. -/

def WCAG_MINIMUM_SIZE : ℤ := 44

def RECOMMENDED_SPACING : ℤ := 8

/-- A JavaScript value as the dimension variables hold it: `null` (initial
value / absent), `NaN` (failed `parseInt`), or a number. -/
inductive JVal where
  | null
  | nan
  | num (n : ℤ)
  deriving DecidableEq, Repr

/-- JavaScript truthiness of such a value: `null`, `NaN` and `0` are falsy. -/
def jvalTruthy : JVal → Bool
  | .null => false
  | .nan => false
  | .num n => decide (n ≠ 0)

/-- `isNaN(v)`: only the `NaN` case (note `isNaN(null)` is `false` since
`null` coerces to `0`). -/
def jvalIsNaN : JVal → Bool
  | .nan => true
  | _ => false

/-- Lift a `parseInt` result into a `JVal`. -/
def jnumToJVal : JNum → JVal
  | none => .nan
  | some n => .num n

/-- A command-line option value: absent, or a string. Truthy iff present
and nonempty. -/
def optTruthy : Option (List Char) → Bool
  | none => false
  | some s => !s.isEmpty

/-- Numeric fields of a `--json` blob for the touch-target checker. -/
structure JsonDims where
  width : JVal
  height : JVal
  deriving Repr

/-- The command-line options `parseDimensions` reads. The `spacing` and
`element` fields only flow through unchanged into the result record, and
the JSON merge for them mirrors the one for width/height. -/
structure TargetOptions where
  width : Option (List Char)
  height : Option (List Char)
  dimensions : Option (List Char)
  spacing : Option (List Char)
  json : Option JsonDims
  deriving Repr

/-- JavaScript `a || b` on dimension values: keep `a` when truthy. -/
def jvalOrElse (a b : JVal) : JVal :=
  if jvalTruthy a then a else b

/-- The width value `parseDimensions` ends up with before its guard:
`--width` (when truthy) parsed with `parseInt`, overridden by the first
half of `--dimensions WxH` when that option contains an `x`, then by a
truthy JSON `width`. -/
def parsedWidth (opts : TargetOptions) : JVal :=
  let w1 : JVal :=
    if optTruthy opts.width then jnumToJVal (jsParseIntAuto (opts.width.getD [])) else .null
  let w2 : JVal :=
    if optTruthy opts.dimensions ∧ listContains ['x'] (opts.dimensions.getD []) then
      jnumToJVal (jsParseIntAuto ((splitOnChar 'x' (opts.dimensions.getD [])).getD 0 []))
    else w1
  match opts.json with
  | none => w2
  | some j => jvalOrElse j.width w2

/-- The height value before the guard, symmetric to `parsedWidth`. -/
def parsedHeight (opts : TargetOptions) : JVal :=
  let h1 : JVal :=
    if optTruthy opts.height then jnumToJVal (jsParseIntAuto (opts.height.getD [])) else .null
  let h2 : JVal :=
    if optTruthy opts.dimensions ∧ listContains ['x'] (opts.dimensions.getD []) then
      jnumToJVal (jsParseIntAuto ((splitOnChar 'x' (opts.dimensions.getD [])).getD 1 []))
    else h1
  match opts.json with
  | none => h2
  | some j => jvalOrElse j.height h2

/-- Extract the integer of a numeric `JVal`; only used after the guard has
ruled out `null` and `NaN`. -/
def jvalToInt : JVal → ℤ
  | .num n => n
  | _ => 0

/-- Dimension record `parseDimensions` returns on success. The spacing is
`null` when the `--spacing` option is absent. -/
structure TargetDims where
  width : ℤ
  height : ℤ
  spacing : JVal
  deriving Repr

/-- `parseDimensions(options)`: compute the width/height values, then
`if (!width || !height || isNaN(width) || isNaN(height))` print the usage
text and exit with code 1; otherwise return the record. -/
def parseDimensions (opts : TargetOptions) : Except ℕ TargetDims :=
  let width := parsedWidth opts
  let height := parsedHeight opts
  if !jvalTruthy width || !jvalTruthy height || jvalIsNaN width || jvalIsNaN height then
    Except.error 1
  else
    Except.ok
      { width := jvalToInt width
        height := jvalToInt height
        spacing :=
          if optTruthy opts.spacing then jnumToJVal (jsParseIntAuto (opts.spacing.getD []))
          else .null }

/-- Result record of `checkSize`. -/
structure SizeCheck where
  compliant : Bool
  minimumWidth : ℤ
  minimumHeight : ℤ
  actualWidth : ℤ
  actualHeight : ℤ
  deriving Repr

/-- `checkSize(width, height)`. -/
def checkSize (width height : ℤ) : SizeCheck :=
  let meetsMinimum := decide (width ≥ WCAG_MINIMUM_SIZE) && decide (height ≥ WCAG_MINIMUM_SIZE)
  { compliant := meetsMinimum
    minimumWidth := WCAG_MINIMUM_SIZE
    minimumHeight := WCAG_MINIMUM_SIZE
    actualWidth := width
    actualHeight := height }

/-- Result record of `checkSpacing`; `compliant` is tri-state. -/
structure SpacingCheck where
  compliant : Option Bool
  recommended : ℤ
  actual : JVal
  deriving Repr

/-- `checkSpacing(spacing)`: `null` spacing reports the unknown tri-state;
otherwise compare against the recommended 8px (a `NaN` spacing compares
false, as `NaN >= 8` does). -/
def checkSpacing : JVal → SpacingCheck
  | .null => { compliant := none, recommended := RECOMMENDED_SPACING, actual := .null }
  | .nan => { compliant := some false, recommended := RECOMMENDED_SPACING, actual := .nan }
  | .num s =>
    { compliant := some (decide (s ≥ RECOMMENDED_SPACING))
      recommended := RECOMMENDED_SPACING
      actual := .num s }

/-- C6: for every parsed width and height the size check is compliant iff
both dimensions are at least 44, and an absent spacing yields the tri-state
unknown value rather than a boolean failure. -/
theorem checkSize_checkSpacing_spec :
    (∀ width height : ℤ,
      ((checkSize width height).compliant = true ↔ (44 ≤ width ∧ 44 ≤ height)))
    ∧ (checkSpacing .null).compliant = none := by
  refine ⟨fun width height => ?_, rfl⟩
  simp [checkSize, WCAG_MINIMUM_SIZE, ge_iff_le]

/-- C10: the touch-target checker rejects exactly the inputs whose final
width or height value is `null` (missing), `NaN` (non-numeric) or `0`: on
those it exits with code 1 before any compliance evaluation, so a zero
dimension is treated like missing input, not like a failing valid size. -/
theorem parseDimensions_guard_spec (opts : TargetOptions) :
    parseDimensions opts = Except.error 1 ↔
      (parsedWidth opts = .null ∨ parsedWidth opts = .nan ∨ parsedWidth opts = .num 0
        ∨ parsedHeight opts = .null ∨ parsedHeight opts = .nan ∨ parsedHeight opts = .num 0) := by
  unfold parseDimensions
  rcases hw : parsedWidth opts with _ | _ | n <;>
    rcases hh : parsedHeight opts with _ | _ | m <;>
      simp [jvalTruthy, jvalIsNaN] <;>
        by_cases hn : n = 0 <;> simp_all

/-! ## Motion/animation tester

From the motion test script: three independent checks (reduced motion,
flashing, duration) each produce a compliant flag plus issue and
recommendation lists; `assessAnimation` aggregates them.  The issue and
recommendation strings are embedded as tags (their interpolated text only
repeats the numbers already present in the input). -/

def MAX_AUTO_DURATION : ℚ := 5

def MAX_FLASHES_PER_SECOND : ℚ := 3

/-- Issue messages the motion tester can push. -/
inductive MotionIssue where
  | reducedMotionPreferred
  | autoDurationExceeded
  | flashingExceeded
  | durationExceeded
  deriving DecidableEq, BEq, Repr

/-- Recommendation messages the motion tester can push. -/
inductive MotionRec where
  | disableOnReducedMotion
  | pauseControls
  | reduceFlashing
  | nonFlashingAlternative
  | testWithSensitiveUsers
  | offerMotionReduction
  | shorterDuration
  | breakIntoSegments
  deriving DecidableEq, BEq, Repr

/-- Result triple of one motion check. -/
structure MotionTest where
  compliant : Bool
  issues : List MotionIssue
  recommendations : List MotionRec
  deriving Repr

/-- Category labels treated as auto-advancing content. -/
def autoTypes : List (List Char) :=
  ["carousel".data, "slideshow".data, "auto-advance".data, "ticker".data, "marquee".data]

/-- Category labels treated as high risk. -/
def highRiskTypes : List (List Char) :=
  ["parallax".data, "scroll-triggered".data, "3d-transform".data]

/-- `testReducedMotion(duration, type, reducedMotion)`. -/
def testReducedMotion (duration : ℚ) (ty : List Char) (reducedMotion : Bool) : MotionTest :=
  let issues :=
    (if reducedMotion then [MotionIssue.reducedMotionPreferred] else [])
    ++ (if duration > MAX_AUTO_DURATION ∧ autoTypes.any (fun t => listContains t ty) then
          [MotionIssue.autoDurationExceeded]
        else [])
  let recommendations :=
    (if reducedMotion then [MotionRec.disableOnReducedMotion] else [])
    ++ (if duration > MAX_AUTO_DURATION ∧ autoTypes.any (fun t => listContains t ty) then
          [MotionRec.pauseControls]
        else [])
    ++ (if highRiskTypes.any (fun t => listContains t ty) then
          [MotionRec.offerMotionReduction]
        else [])
  { compliant := issues.isEmpty
    issues := issues
    recommendations := recommendations }

/-- `testFlashing(flashes)`. -/
def testFlashing (flashes : ℚ) : MotionTest :=
  let compliant := decide (flashes ≤ MAX_FLASHES_PER_SECOND)
  { compliant := compliant
    issues := if !compliant then [MotionIssue.flashingExceeded] else []
    recommendations :=
      if !compliant then
        [MotionRec.reduceFlashing, MotionRec.nonFlashingAlternative,
          MotionRec.testWithSensitiveUsers]
      else [] }

/-- `testDuration(duration, type)` (the category parameter is unused in the
source as well). -/
def testDuration (duration : ℚ) (_ty : List Char) : MotionTest :=
  let compliant := decide (duration ≤ MAX_AUTO_DURATION)
  { compliant := compliant
    issues := if !compliant then [MotionIssue.durationExceeded] else []
    recommendations :=
      if !compliant then [MotionRec.shorterDuration, MotionRec.breakIntoSegments] else [] }

/-- Per-check compliance booleans of the overall assessment. -/
structure MotionCompliance where
  reducedMotion : Bool
  flashing : Bool
  duration : Bool
  deriving Repr

/-- Overall result of `assessAnimation`. -/
structure MotionAssessment where
  compliance : MotionCompliance
  issues : List MotionIssue
  recommendations : List MotionRec
  deriving Repr

/-- `assessAnimation(duration, type, flashes, reducedMotion)`: run the three
checks, collect issues, de-duplicate recommendations (JavaScript
`[...new Set(list)]` keeps first occurrences, as `eraseDups` does). -/
def assessAnimation (duration : ℚ) (ty : List Char) (flashes : ℚ) (reducedMotion : Bool) :
    MotionAssessment :=
  let reducedMotionTest := testReducedMotion duration ty reducedMotion
  let flashingTest := testFlashing flashes
  let durationTest := testDuration duration ty
  { compliance :=
      { reducedMotion := !reducedMotion || reducedMotionTest.compliant
        flashing := flashingTest.compliant
        duration := durationTest.compliant }
    issues := reducedMotionTest.issues ++ flashingTest.issues ++ durationTest.issues
    recommendations :=
      (reducedMotionTest.recommendations ++ flashingTest.recommendations
        ++ durationTest.recommendations).eraseDups }

/-- C7: the flashing verdict of the animation assessment is non-compliant
exactly when the flash rate exceeds 3 per second, whatever the duration,
category label and reduced-motion preference are. -/
theorem assessAnimation_flashing_spec
    (duration : ℚ) (ty : List Char) (flashes : ℚ) (reducedMotion : Bool) :
    (assessAnimation duration ty flashes reducedMotion).compliance.flashing = false
      ↔ flashes > 3 := by
  simp [assessAnimation, testFlashing, MAX_FLASHES_PER_SECOND]

/-! ## Focus order validator

From the keyboard-focus script: `getElementType` classifies an element
label by substring matching, `validateLogicalOrder` runs the rule checks
and reports issues and recommendations.  JavaScript indexing past the end
of `tabOrder` yields `undefined`, and any `<`/`>` comparison against
`undefined` is false; the comparisons are embedded on `Option ℤ`
accordingly. -/

/-- Category a label is classified into. -/
inductive ElementType where
  | header
  | nav
  | mainContent
  | button
  | inputField
  | footer
  | link
  | other
  deriving DecidableEq, Repr

/-- `getElementType(element)`: first matching keyword wins. -/
def getElementType (element : List Char) : ElementType :=
  let el := jsToLower element
  if listContains "header".data el || listContains "h1".data el || listContains "logo".data el then
    .header
  else if listContains "nav".data el || listContains "menu".data el
      || listContains "navigation".data el then
    .nav
  else if listContains "main".data el || listContains "content".data el
      || listContains "article".data el then
    .mainContent
  else if listContains "button".data el || listContains "btn".data el
      || listContains "submit".data el then
    .button
  else if listContains "input".data el || listContains "form".data el
      || listContains "field".data el then
    .inputField
  else if listContains "footer".data el || listContains "bottom".data el then
    .footer
  else if listContains "link".data el || listContains "a href".data el then
    .link
  else
    .other

/-- First index of a value in a list (`Array.prototype.indexOf`, with
`none` for the -1 "not found" result). -/
def indexOfOpt (x : ElementType) (l : List ElementType) : Option ℕ :=
  l.findIdx? (fun y => y = x)

/-- JavaScript `a > b` where either side may be `undefined` (false then). -/
def jsGtOpt : Option ℤ → Option ℤ → Bool
  | some a, some b => decide (a > b)
  | _, _ => false

/-- JavaScript `a < b` with the same `undefined` behaviour. -/
def jsLtOpt : Option ℤ → Option ℤ → Bool
  | some a, some b => decide (a < b)
  | _, _ => false

/-- Issue messages of the focus-order validator. -/
inductive FocusIssue where
  | tabOrderMismatch
  | headerAfterMain
  | footerBeforeMain
  | duplicateTabIndices
  deriving DecidableEq, Repr

/-- Recommendation messages of the focus-order validator. -/
inductive FocusRec where
  | matchExpectedOrder
  | moveHeaderFirst
  | moveMainBeforeFooter
  | uniqueTabIndices
  | skipLinks
  deriving DecidableEq, Repr

/-- Result record of `validateLogicalOrder`. -/
structure FocusValidation where
  logical : Bool
  complete : Bool
  issues : List FocusIssue
  recommendations : List FocusRec
  deriving Repr

/-- The duplicate-index test of the source: `new Set(tabOrder).size`
differs from `tabOrder.length` (the set size is the number of distinct
entries, i.e. the length of the de-duplicated list). -/
def hasDuplicateIndices (tabOrder : List ℤ) : Bool :=
  decide (tabOrder.dedup.length ≠ tabOrder.length)

/-- `validateLogicalOrder(elements, tabOrder, expectedOrder)`. -/
def validateLogicalOrder (elements : List (List Char)) (tabOrder : List ℤ)
    (expectedOrder : Option (List ℤ)) : FocusValidation :=
  let elementTypes := elements.map (fun el => getElementType (jsToLower el))
  let headerIndex := indexOfOpt .header elementTypes
  let mainIndex := indexOfOpt .mainContent elementTypes
  let footerIndex := indexOfOpt .footer elementTypes
  let headerAfterMain :=
    match headerIndex, mainIndex with
    | some hi, some mi => jsGtOpt (tabOrder.get? hi) (tabOrder.get? mi)
    | _, _ => false
  let footerBeforeMain :=
    match footerIndex, mainIndex with
    | some fi, some mi => jsLtOpt (tabOrder.get? fi) (tabOrder.get? mi)
    | _, _ => false
  let issues :=
    (match expectedOrder with
      | none => []
      | some expected => if tabOrder = expected then [] else [FocusIssue.tabOrderMismatch])
    ++ (if headerAfterMain then [FocusIssue.headerAfterMain] else [])
    ++ (if footerBeforeMain then [FocusIssue.footerBeforeMain] else [])
    ++ (if hasDuplicateIndices tabOrder then [FocusIssue.duplicateTabIndices] else [])
  let recommendations :=
    (match expectedOrder with
      | none => []
      | some expected => if tabOrder = expected then [] else [FocusRec.matchExpectedOrder])
    ++ (if headerAfterMain then [FocusRec.moveHeaderFirst] else [])
    ++ (if footerBeforeMain then [FocusRec.moveMainBeforeFooter] else [])
    ++ (if hasDuplicateIndices tabOrder then [FocusRec.uniqueTabIndices] else [])
    ++ (if 1 < (elementTypes.filter (fun t => t = ElementType.nav)).length then
          [FocusRec.skipLinks]
        else [])
  { logical := issues.isEmpty
    complete := decide (elements.length = tabOrder.length)
    issues := issues
    recommendations := recommendations }

/-- The source's set-size test detects exactly the lists with a repeated
entry. -/
theorem hasDuplicateIndices_iff (tabOrder : List ℤ) :
    hasDuplicateIndices tabOrder = true ↔ ¬ tabOrder.Nodup := by
  unfold hasDuplicateIndices
  simp only [decide_eq_true_eq]
  constructor
  · intro hne hnodup
    exact hne (by rw [List.dedup_eq_self.mpr hnodup])
  · intro hnot heq
    exact hnot (by
      have := (List.dedup_sublist tabOrder).eq_of_length heq
      simpa [this] using List.nodup_dedup tabOrder)

/-- C9: a duplicate entry in the tab-order list always makes the validator
report the duplicate-tab-index (potential focus trap) issue and a false
logical verdict; with pairwise distinct entries that issue is never
reported. -/
theorem validateLogicalOrder_duplicates (elements : List (List Char)) (tabOrder : List ℤ)
    (expectedOrder : Option (List ℤ)) :
    (¬ tabOrder.Nodup →
      FocusIssue.duplicateTabIndices ∈ (validateLogicalOrder elements tabOrder expectedOrder).issues
      ∧ (validateLogicalOrder elements tabOrder expectedOrder).logical = false)
    ∧ (tabOrder.Nodup →
      FocusIssue.duplicateTabIndices
        ∉ (validateLogicalOrder elements tabOrder expectedOrder).issues) := by
  have hdup := hasDuplicateIndices_iff tabOrder
  constructor
  · intro hnodup
    have hd : hasDuplicateIndices tabOrder = true := hdup.mpr hnodup
    constructor
    · simp only [validateLogicalOrder, hd, List.mem_append]
      simp
    · simp only [validateLogicalOrder, hd]
      simp [List.isEmpty_iff]
  · intro hnodup
    have hd : hasDuplicateIndices tabOrder = false := by
      rcases Bool.eq_false_or_eq_true (hasDuplicateIndices tabOrder) with h | h
      · exact absurd (hdup.mp h) (not_not.mpr hnodup)
      · exact h
    simp only [validateLogicalOrder, hd, List.mem_append]
    rcases expectedOrder with _ | expected <;>
      split_ifs <;> simp_all

/-- Witness for C9 at a concrete duplicated tab order. -/
theorem validateLogicalOrder_duplicates_witness :
    FocusIssue.duplicateTabIndices ∈ (validateLogicalOrder ["a".data] [1, 1] none).issues
    ∧ (validateLogicalOrder ["a".data] [1, 1] none).logical = false :=
  (validateLogicalOrder_duplicates ["a".data] [1, 1] none).1 (by decide)

/-! ## Color blindness simulator

From the simulator script: `parseColor` accepts `#RGB`, `#RRGGBB` and
`rgb(r,g,b)` strings; `rgbToLms`, the deficiency matrices and `lmsToRgb`
form the numeric pipeline.  `parseInt` returns `NaN` on non-hex input, and
the resulting channel values are carried as `JNum` (`none` = `NaN`): the
script's null-check does not reject such a color object. -/

/-- A color object as `parseColor` builds it: each channel may be `NaN`. -/
structure JColor where
  r : JNum
  g : JNum
  b : JNum
  deriving DecidableEq, Repr

/-- `parseColor(color)` of the simulator: empty/absent input is `null`,
then the trimmed lowercased string is matched against `#RGB`, `#RRGGBB`
and `rgb(r,g,b)`; anything else is `null`. -/
def parseColor (input : List Char) : Option JColor :=
  if input.isEmpty then none
  else
    let color := jsToLower (jsTrim input)
    if ['#'].isPrefixOf color then
      match color.drop 1 with
      | [c1, c2, c3] =>
        some
          { r := jsParseIntRadix 16 [c1, c1]
            g := jsParseIntRadix 16 [c2, c2]
            b := jsParseIntRadix 16 [c3, c3] }
      | [c1, c2, c3, c4, c5, c6] =>
        some
          { r := jsParseIntRadix 16 [c1, c2]
            g := jsParseIntRadix 16 [c3, c4]
            b := jsParseIntRadix 16 [c5, c6] }
      | _ => parseColorRgbBranch color
    else parseColorRgbBranch color
where
  /-- The `rgb(...)` arm shared by both fall-through paths. -/
  parseColorRgbBranch (color : List Char) : Option JColor :=
    if "rgb(".data.isPrefixOf color ∧ [')'].isSuffixOf color then
      match (splitOnChar ',' (color.drop 4).dropLast).map
          (fun v => jsParseIntAuto (jsTrim v)) with
      | [rv, gv, bv] => some { r := rv, g := gv, b := bv }
      | _ => none
    else none

/-- One deficiency transformation matrix (row-major 3×3). -/
structure Mat3 where
  a00 : ℚ
  a01 : ℚ
  a02 : ℚ
  a10 : ℚ
  a11 : ℚ
  a12 : ℚ
  a20 : ℚ
  a21 : ℚ
  a22 : ℚ
  deriving DecidableEq, Repr

/-- `TRANSFORMATION_MATRICES[type]` as a lookup from the type string.
The three own properties of the source object are the only lookups that
produce a usable matrix: a lookup that misses (or hits an inherited
non-matrix property, which then throws inside the guarded `try`) makes the
tool exit with code 1 either way. -/
def TRANSFORMATION_MATRICES (ty : List Char) : Option Mat3 :=
  if ty = "protanopia".data then
    some ⟨0.567, 0.433, 0.000, 0.558, 0.442, 0.000, 0.000, 0.242, 0.758⟩
  else if ty = "deuteranopia".data then
    some ⟨0.625, 0.375, 0.000, 0.700, 0.300, 0.000, 0.000, 0.300, 0.700⟩
  else if ty = "tritanopia".data then
    some ⟨0.950, 0.050, 0.000, 0.000, 0.433, 0.567, 0.000, 0.475, 0.525⟩
  else none

/-- `rgbToLms(r, g, b)`: normalise to 0–1 and apply the fixed RGB→LMS
matrix. -/
def rgbToLms (r g b : ℚ) : ℚ × ℚ × ℚ :=
  let rNorm := r / 255
  let gNorm := g / 255
  let bNorm := b / 255
  (17.8824 * rNorm + 43.5161 * gNorm + 4.11935 * bNorm,
    3.45565 * rNorm + 27.1554 * gNorm + 3.86714 * bNorm,
    0.0299566 * rNorm + 0.184309 * gNorm + 1.46709 * bNorm)

/-- Integer color returned by `lmsToRgb`. -/
structure RGBInt where
  r : ℤ
  g : ℤ
  b : ℤ
  deriving DecidableEq, Repr

/-- `Math.max(0, Math.min(1, x))`. -/
def clamp01 (x : ℚ) : ℚ :=
  max 0 (min 1 x)

/-- `lmsToRgb(L, M, S)`: fixed inverse matrix, clamp each channel to [0,1],
scale to 0–255 and round. -/
def lmsToRgb (L M S : ℚ) : RGBInt :=
  let r := 0.0809444479 * L + (-0.130504409) * M + 0.116721066 * S
  let g := (-0.0102485335) * L + 0.0540193266 * M + (-0.113614708) * S
  let b := (-0.000365296938) * L + (-0.00412161469) * M + 0.693511405 * S
  { r := jsRound (clamp01 r * 255)
    g := jsRound (clamp01 g * 255)
    b := jsRound (clamp01 b * 255) }

/-- `simulateColorBlindness(color, type)` on numeric channels: look up the
matrix (the throw on a missing one surfaces as `none`), transform in LMS
space, convert back. -/
def simulateColorBlindness (r g b : ℚ) (ty : List Char) : Option RGBInt :=
  (TRANSFORMATION_MATRICES ty).map fun m =>
    let lms := rgbToLms r g b
    let L := lms.1
    let M := lms.2.1
    let S := lms.2.2
    lmsToRgb (m.a00 * L + m.a01 * M + m.a02 * S)
      (m.a10 * L + m.a11 * M + m.a12 * S)
      (m.a20 * L + m.a21 * M + m.a22 * S)

/-- Outcome of the simulator's `main`: exit code 1 before any output, or a
printed simulation (the parsed color and the type it proceeded with). -/
def simulatorMain (colorStr typeStr : List Char) : Except ℕ (JColor × List Char) :=
  match parseColor colorStr with
  | none => Except.error 1
  | some color =>
    if typeStr.isEmpty ∨ TRANSFORMATION_MATRICES typeStr = none then Except.error 1
    else Except.ok (color, typeStr)

/-- Rounding a clamped-and-scaled channel lands in 0–255. -/
theorem jsRound_clamp01_mem (x : ℚ) :
    0 ≤ jsRound (clamp01 x * 255) ∧ jsRound (clamp01 x * 255) ≤ 255 := by
  have h0 : (0 : ℚ) ≤ clamp01 x := le_max_left 0 _
  have h1 : clamp01 x ≤ 1 := max_le (by norm_num) (min_le_left 1 x)
  unfold jsRound
  rw [ratFloor_eq_intFloor]
  constructor
  · rw [Int.floor_nonneg]
    nlinarith
  · have : (⌊clamp01 x * 255 + 1 / 2⌋ : ℤ) < 256 := by
      rw [Int.floor_lt]
      push_cast
      nlinarith
    omega

/-- C8: whenever the simulation runs (any input channels, any recognised
deficiency type), the clamp to [0,1] before the scale to 0–255 with
rounding makes every output channel an integer in 0–255. -/
theorem simulateColorBlindness_channels_in_range
    (r g b : ℚ) (ty : List Char) (out : RGBInt)
    (h : simulateColorBlindness r g b ty = some out) :
    (0 ≤ out.r ∧ out.r ≤ 255) ∧ (0 ≤ out.g ∧ out.g ≤ 255) ∧ (0 ≤ out.b ∧ out.b ≤ 255) := by
  unfold simulateColorBlindness at h
  rcases hm : TRANSFORMATION_MATRICES ty with _ | m
  · rw [hm] at h
    simp at h
  · rw [hm] at h
    simp only [Option.map_some] at h
    cases h
    exact ⟨jsRound_clamp01_mem _, jsRound_clamp01_mem _, jsRound_clamp01_mem _⟩

/-- Witness for C8: simulating black under protanopia is defined and in
range (the pipeline maps it to black). -/
theorem simulateColorBlindness_channels_in_range_witness :
    (0 ≤ (RGBInt.mk 0 0 0).r ∧ (RGBInt.mk 0 0 0).r ≤ 255)
    ∧ (0 ≤ (RGBInt.mk 0 0 0).g ∧ (RGBInt.mk 0 0 0).g ≤ 255)
    ∧ (0 ≤ (RGBInt.mk 0 0 0).b ∧ (RGBInt.mk 0 0 0).b ≤ 255) :=
  simulateColorBlindness_channels_in_range 0 0 0 "protanopia".data ⟨0, 0, 0⟩
    (by
      norm_num [simulateColorBlindness, TRANSFORMATION_MATRICES, rgbToLms, lmsToRgb,
        clamp01, jsRound, ratFloor_eq_intFloor, min_def, max_def])

/-- C3 failing input: the 3-character string `#ggg` is not hexadecimal, yet
`parseInt` only yields `NaN` channels, the color object is non-null, the
type guard passes, and the simulator proceeds to print a result and exit
with code 0 instead of rejecting the input. -/
theorem nan_color_accepted_bug :
    parseColor "#ggg".data = some { r := none, g := none, b := none }
    ∧ simulatorMain "#ggg".data "protanopia".data =
        Except.ok ({ r := none, g := none, b := none }, "protanopia".data) :=
  ⟨rfl, rfl⟩

/-! ## Skill metadata aggregator: category assignment

From `generateSkillsConfig(skills)`: each skill entry's category is
computed from its name alone — a tool suffix gives `tools`, then a
`-deep` substring gives `deep`, then a `wcag-` leading match gives
`router`, and everything else gets `other`. -/

/-- The tool suffix list of `generateSkillsConfig`. -/
def toolSuffixes : List (List Char) :=
  ["-focus".data, "-test".data, "-size".data, "-contrast".data, "-blindness".data,
    "-target-size".data]

/-- The category string assigned to a skill name inside
`generateSkillsConfig`. -/
def skillCategory (name : List Char) : List Char :=
  let isTool := toolSuffixes.any fun s => s.isSuffixOf name
  if isTool then "tools".data
  else if listContains "-deep".data name then "deep".data
  else if "wcag-".data.isPrefixOf name then "router".data
  else "other".data

/-- The executable substring test agrees with the infix relation. -/
theorem listContains_iff (pat l : List Char) :
    listContains pat l = true ↔ pat <:+: l := by
  induction l with
  | nil =>
    simp [listContains, List.isEmpty_iff]
  | cons c rest ih =>
    simp only [listContains, Bool.or_eq_true, List.isPrefixOf_iff_prefix, ih,
      List.infix_cons_iff]

/-- C2 counterexample: the name `misc-skill` ends in no tool suffix and
does not contain `-deep`, yet its category is `other`, not the claimed
default `router`. -/
theorem skillCategory_default_counterexample :
    (toolSuffixes.all fun s => !(s.isSuffixOf "misc-skill".data)) = true
    ∧ listContains "-deep".data "misc-skill".data = false
    ∧ skillCategory "misc-skill".data = "other".data
    ∧ "other".data ≠ "router".data := by
  refine ⟨by decide, by decide, by decide, by decide⟩

/-- C2 (amended): the category is derived purely from the name — a tool
suffix gives `tools`; otherwise a `-deep` substring gives `deep`;
otherwise a leading `wcag-` gives `router`; every remaining name gets
`other` (not `router`). -/
theorem skillCategory_cases (name : List Char) :
    ((∃ s ∈ toolSuffixes, s <:+ name) → skillCategory name = "tools".data)
    ∧ ((∀ s ∈ toolSuffixes, ¬ s <:+ name) → "-deep".data <:+: name →
        skillCategory name = "deep".data)
    ∧ ((∀ s ∈ toolSuffixes, ¬ s <:+ name) → ¬ "-deep".data <:+: name →
        "wcag-".data <+: name → skillCategory name = "router".data)
    ∧ ((∀ s ∈ toolSuffixes, ¬ s <:+ name) → ¬ "-deep".data <:+: name →
        ¬ "wcag-".data <+: name → skillCategory name = "other".data) := by
  have htool : (toolSuffixes.any fun s => s.isSuffixOf name) = true
      ↔ ∃ s ∈ toolSuffixes, s <:+ name := by
    simp [List.any_eq_true, List.isSuffixOf_iff_suffix]
  refine ⟨fun h => ?_, fun h1 h2 => ?_, fun h1 h2 h3 => ?_, fun h1 h2 h3 => ?_⟩
  · simp only [skillCategory]
    rw [if_pos (htool.mpr h)]
  · simp only [skillCategory]
    rw [if_neg ?_, if_pos ((listContains_iff _ _).mpr h2)]
    simp only [htool]
    push_neg
    exact h1
  · simp only [skillCategory]
    rw [if_neg ?_, if_neg ?_, if_pos (List.isPrefixOf_iff_prefix.mpr h3)]
    · rw [listContains_iff]
      exact h2
    · simp only [htool]
      push_neg
      exact h1
  · simp only [skillCategory]
    rw [if_neg ?_, if_neg ?_, if_neg ?_]
    · rw [List.isPrefixOf_iff_prefix]
      exact h3
    · rw [listContains_iff]
      exact h2
    · simp only [htool]
      push_neg
      exact h1

/-- Witness for C2 at the concrete remaining name `misc-skill`. -/
theorem skillCategory_cases_witness :
    skillCategory "misc-skill".data = "other".data :=
  (skillCategory_cases "misc-skill".data).2.2.2 (by decide) (by decide) (by decide)

/-! ## Font size converter

From the conversion script: `toPixels` normalises a value to pixels
(`pt` multiplies by the 1.333 ratio, `em`/`rem` by the base font size,
a unit outside the switch falls through to the identity), and
`fromPixels` applies the inverse operations. -/

def ptToPxFactor : ℚ := 1.333

def DEFAULT_BASE_FONT : ℚ := 16

/-- The unit strings the converter switches on; `other` stands for any
string hitting the default branch (the input parser only ever produces
the four named units). -/
inductive FontUnit where
  | px
  | pt
  | em
  | rem
  | other
  deriving DecidableEq, Repr

/-- `toPixels(value, unit, baseFontSize)`. -/
def toPixels (value : ℚ) (unit : FontUnit) (baseFontSize : ℚ) : ℚ :=
  match unit with
  | .px => value
  | .pt => value * ptToPxFactor
  | .em => value * baseFontSize
  | .rem => value * baseFontSize
  | .other => value

/-- `fromPixels(pxValue, targetUnit, baseFontSize)`. -/
def fromPixels (pxValue : ℚ) (targetUnit : FontUnit) (baseFontSize : ℚ) : ℚ :=
  match targetUnit with
  | .px => pxValue
  | .pt => pxValue / ptToPxFactor
  | .em => pxValue / baseFontSize
  | .rem => pxValue / baseFontSize
  | .other => pxValue

/-- One conversion as `performConversion` runs it: normalise the source
value to pixels, then convert to the target unit. -/
def convertFontSize (value : ℚ) (unit targetUnit : FontUnit) (baseFontSize : ℚ) : ℚ :=
  fromPixels (toPixels value unit baseFontSize) targetUnit baseFontSize

/-- C4 counterexample: with base font size 0 (the parser accepts `0px` as
a base font) the em→px→em round trip of the value 1 collapses to 0 — the
original value is not recovered, in this exact-arithmetic model or in the
floating-point original (where the result is `NaN`). -/
theorem convert_roundTrip_counterexample :
    convertFontSize (convertFontSize 1 .em .px 0) .px .em 0 = 0 ∧ (0 : ℚ) ≠ 1 := by
  constructor
  · norm_num [convertFontSize, toPixels, fromPixels]
  · norm_num

/-- C4 (amended): for every value, every nonzero base font size and every
ordered pair of units among px, pt, em, rem, converting to the target unit
and back returns the original value exactly (so in particular within any
rounding tolerance). -/
theorem convert_roundTrip (value baseFontSize : ℚ) (u t : FontUnit)
    (hu : u ≠ FontUnit.other) (ht : t ≠ FontUnit.other) (hb : baseFontSize ≠ 0) :
    convertFontSize (convertFontSize value u t baseFontSize) t u baseFontSize = value := by
  have hpt : ptToPxFactor ≠ 0 := by norm_num [ptToPxFactor]
  cases u <;> cases t <;>
    simp_all [convertFontSize, toPixels, fromPixels]

/-- Witness for C4: a 12pt value survives the pt→rem→pt round trip at the
default 16px base font. -/
theorem convert_roundTrip_witness :
    convertFontSize (convertFontSize 12 .pt .rem 16) .rem .pt 16 = 12 ∧ (16 : ℚ) ≠ 0 :=
  ⟨convert_roundTrip 12 16 .pt .rem (by decide) (by decide) (by norm_num), by norm_num⟩

/-! ## Contrast ratio calculator: the luminance pipeline

From `getRelativeLuminance` / `getContrastRatio`: each sRGB channel is
normalised to [0,1], linearised (linear segment below the 0.03928 knee,
gamma expansion `((v+0.055)/1.055)^2.4` above it), weighted, and the two
luminances give `(lighter + 0.05) / (darker + 0.05)`.  The fractional
power forces this fragment onto `ℝ`. -/

/-- A parsed color: integer channels 0–255 (the data-model range; the
nonnegativity is all the theorems use). -/
structure Color255 where
  r : ℕ
  g : ℕ
  b : ℕ

/-- The `toLinear` helper inside `getRelativeLuminance`: normalise by 255
then linearise. -/
noncomputable def toLinear (value : ℝ) : ℝ :=
  if value / 255 ≤ 0.03928 then (value / 255) / 12.92
  else ((value / 255 + 0.055) / 1.055) ^ (2.4 : ℝ)

/-- `getRelativeLuminance(color)`. -/
noncomputable def getRelativeLuminance (color : Color255) : ℝ :=
  0.2126 * toLinear color.r + 0.7152 * toLinear color.g + 0.0722 * toLinear color.b

/-- `getContrastRatio(color1, color2)`. -/
noncomputable def getContrastRatio (color1 color2 : Color255) : ℝ :=
  let lum1 := getRelativeLuminance color1
  let lum2 := getRelativeLuminance color2
  let lighter := max lum1 lum2
  let darker := min lum1 lum2
  (lighter + 0.05) / (darker + 0.05)

/-- Linearised channels are nonnegative on nonnegative input. -/
theorem toLinear_nonneg (value : ℝ) (hv : 0 ≤ value) : 0 ≤ toLinear value := by
  unfold toLinear
  split
  · positivity
  · apply Real.rpow_nonneg
    positivity

/-- Relative luminance is nonnegative. -/
theorem getRelativeLuminance_nonneg (color : Color255) :
    0 ≤ getRelativeLuminance color := by
  unfold getRelativeLuminance
  have hr := toLinear_nonneg color.r (Nat.cast_nonneg _)
  have hg := toLinear_nonneg color.g (Nat.cast_nonneg _)
  have hb := toLinear_nonneg color.b (Nat.cast_nonneg _)
  nlinarith

/-- Luminance of a channel value 255 is exactly 1: the gamma branch is
taken and `((1 + 0.055)/1.055)^2.4 = 1`. -/
theorem toLinear_255 : toLinear 255 = 1 := by
  unfold toLinear
  rw [if_neg (by norm_num)]
  rw [show ((255 : ℝ) / 255 + 0.055) / 1.055 = 1 by norm_num]
  exact Real.one_rpow _

/-- Luminance of a channel value 0 is exactly 0 (linear branch). -/
theorem toLinear_0 : toLinear 0 = 0 := by
  unfold toLinear
  rw [if_pos (by norm_num)]
  norm_num

/-- C5: the contrast ratio of any color with itself is exactly 1, and the
ratio of pure black against pure white is exactly 21 in this exact-real
model (the floating-point tool reports it up to rounding). -/
theorem contrastRatio_identity_and_extreme :
    (∀ color : Color255, getContrastRatio color color = 1)
    ∧ getContrastRatio ⟨0, 0, 0⟩ ⟨255, 255, 255⟩ = 21 := by
  constructor
  · intro color
    unfold getContrastRatio
    have hlum := getRelativeLuminance_nonneg color
    simp only [max_self, min_self]
    rw [div_self (by positivity)]
  · unfold getContrastRatio
    have hblack : getRelativeLuminance ⟨0, 0, 0⟩ = 0 := by
      unfold getRelativeLuminance
      simp only [Nat.cast_zero, toLinear_0]
      norm_num
    have hwhite : getRelativeLuminance ⟨255, 255, 255⟩ = 1 := by
      unfold getRelativeLuminance
      norm_num [toLinear_255]
    rw [hblack, hwhite]
    norm_num

end Wcag
